import Mathlib

/-!
# Verification of the MCP audit/compliance core

Shallow embedding of the deterministic core of the
`mcp_audit_compliance_platform` repository:

* `check_aml_compliance`   — `MCPAuditServer._check_aml_compliance` (src/mcp_server.py)
* `validate_compliance`    — `MCPAuditServer._validate_compliance` (src/mcp_server.py)
* `generate_audit_report_summary` — the summary block of
  `MCPAuditServer._generate_audit_report` (src/mcp_server.py)
* `policy_parse_request_type`    — `PolicyEngineAgent._parse_request_type`
* `financial_parse_request_type` — `FinancialDataAgent._parse_request_type`
* `parse_transaction_filters`    — `FinancialDataAgent._parse_transaction_filters`

Python dictionaries with `.get` access are modelled as structures of
`Option`-typed fields; monetary amounts are modelled as exact rationals
(the Python source uses floats, but every threshold comparison and every
formatted amount in the claims is a small decimal that floats represent
exactly).  Python string primitives (`in`, `split()`, `replace`, `lower`,
`float`) are re-implemented on `List Char` so that every definition is
executable by the kernel.
-/

/-- Python `pat.isPrefixOf`-style check on character lists:
`listStarts pat l` is true when `pat` is an initial segment of `l`. -/
def listStarts : List Char → List Char → Bool
  | [], _ => true
  | _ :: _, [] => false
  | p :: ps, c :: cs => p == c && listStarts ps cs

/-- Python `pat in s` on character lists: `pat` occurs contiguously in `l`. -/
def listContainsSub (pat : List Char) : List Char → Bool
  | [] => pat.isEmpty
  | c :: t => listStarts pat (c :: t) || listContainsSub pat t

/-- Python `pat in s` for strings (substring containment). -/
def strContains (s pat : String) : Bool :=
  listContainsSub pat.data s.data

/-- Python `str.lower()` (ASCII case folding, which is all the source feeds it). -/
def pyLower (s : String) : String :=
  ⟨s.data.map Char.toLower⟩

/-- Helper for `pySplit`: accumulates the current word (reversed) while
scanning; whitespace runs separate words and empty words are dropped,
exactly as Python `str.split()` with no argument behaves. -/
def pySplitList : List Char → List Char → List (List Char)
  | acc, [] => if acc.isEmpty then [] else [acc.reverse]
  | acc, c :: rest =>
    if c.isWhitespace then
      if acc.isEmpty then pySplitList [] rest
      else acc.reverse :: pySplitList [] rest
    else pySplitList (c :: acc) rest

/-- Python `str.split()` (split on whitespace runs, no empty pieces). -/
def pySplit (s : String) : List String :=
  (pySplitList [] s.data).map String.mk

/-- Worker for `replaceList`, structurally recursive on a fuel counter so
the kernel can evaluate it.  Every step consumes at least one character and
exactly one unit of fuel, so starting the fuel at the list's length the
zero-fuel guard is unreachable. -/
def replaceListAux (pat rep : List Char) : ℕ → List Char → List Char
  | 0, l => l
  | _ + 1, [] => []
  | fuel + 1, c :: rest =>
    if listStarts pat (c :: rest) && !pat.isEmpty then
      rep ++ replaceListAux pat rep fuel (List.drop (pat.length - 1) rest)
    else
      c :: replaceListAux pat rep fuel rest

/-- Python `str.replace(pat, rep)` on character lists: every non-overlapping
occurrence of `pat`, found left to right, is replaced by `rep`; the
replacement text is not rescanned. -/
def replaceList (pat rep l : List Char) : List Char :=
  replaceListAux pat rep l.length l

/-- Python `s.replace(pat, rep)` for strings. -/
def pyReplace (s pat rep : String) : String :=
  ⟨replaceList pat.data rep.data s.data⟩

/-- Digit-list value, e.g. `['4','2'] ↦ 42` (used by the `float()` model). -/
def digitsVal (cs : List Char) : ℕ :=
  cs.foldl (fun a c => a * 10 + (c.toNat - 48)) 0

/-- The rational `m / d` in lowest terms, built directly from the reduced
numerator and denominator (core `Rat` arithmetic is avoided throughout the
executable paths so the kernel can evaluate every definition). -/
def ratNormalize (m : ℤ) (d : ℕ) : ℚ :=
  if hd : d = 0 then 0
  else
    let g := Nat.gcd m.natAbs d
    have hg : 0 < Nat.gcd m.natAbs d := Nat.gcd_pos_of_pos_right _ (Nat.pos_of_ne_zero hd)
    have den_nz : d / g ≠ 0 := by
      intro h
      have h2 := Nat.div_mul_cancel (Nat.gcd_dvd_right m.natAbs d)
      rw [h, Nat.zero_mul] at h2
      exact hd h2.symm
    have red : Nat.Coprime (m.natAbs / g) (d / g) := Nat.coprime_div_gcd_div_gcd hg
    if m < 0 then
      Rat.mk' (-((m.natAbs / g : ℕ) : ℤ)) (d / g) den_nz
        (by rw [Int.natAbs_neg, Int.natAbs_ofNat]; exact red)
    else
      Rat.mk' ((m.natAbs / g : ℕ) : ℤ) (d / g) den_nz
        (by rw [Int.natAbs_ofNat]; exact red)

/-- Python `float()` restricted to plain decimal literals (optional sign,
digits, at most one point, at least one digit) — the only shape the filter
parser ever feeds it after its `replace` clean-up.  `none` models Python's
`ValueError`, which the source swallows with `except: pass`. -/
def pyFloat (s : String) : Option ℚ :=
  let (neg, cs) : Bool × List Char :=
    match s.data with
    | '-' :: t => (true, t)
    | '+' :: t => (false, t)
    | cs => (false, cs)
  let signed : ℕ → ℤ := fun n => if neg then -(n : ℤ) else (n : ℤ)
  let intPart := cs.takeWhile Char.isDigit
  let rest := cs.dropWhile Char.isDigit
  match rest with
  | [] =>
    if intPart.isEmpty then none
    else some (ratNormalize (signed (digitsVal intPart)) 1)
  | '.' :: frac =>
    if frac.all Char.isDigit && !(intPart.isEmpty && frac.isEmpty) then
      some (ratNormalize
        (signed (digitsVal intPart * 10 ^ frac.length + digitsVal frac))
        (10 ^ frac.length))
    else none
  | _ => none

/-- Thousands grouping on a reversed digit list: a comma after every third
character (scanning from the least significant digit). -/
def groupRev : List Char → List Char
  | a :: b :: c :: d :: rest => a :: b :: c :: ',' :: groupRev (d :: rest)
  | l => l

/-- Insert thousands separators into a plain digit string: `"150000" ↦ "150,000"`. -/
def groupThousands (s : String) : String :=
  ⟨(groupRev s.data.reverse).reverse⟩

/-- Two-digit zero-padded rendering of a number below 100. -/
def padTwo (n : ℕ) : String :=
  if n < 10 then "0" ++ toString n else toString n

/-- Python's format spec `",.2f"` (as in `f"€{amount:,.2f}"`): thousands
separators and exactly two decimals.  The cents value is
`⌊q·100 + 1/2⌋ = (200·num + den).fdiv (2·den)`, written as the integer
formula so the kernel can evaluate it; it is exact for amounts that are
whole numbers of cents, which is the data model's contract for monetary
amounts (Python's half-to-even tie behaviour on binary floats never
differs there). -/
def fmtComma2 (q : ℚ) : String :=
  let c : ℤ := Int.fdiv (200 * q.num + (q.den : ℤ)) (2 * (q.den : ℤ))
  let n : ℕ := c.natAbs
  let body := groupThousands (toString (n / 100)) ++ "." ++ padTwo (n % 100)
  if c < 0 then "-" ++ body else body

/-- A transaction record as the rule engine receives it: a JSON-style
dictionary read with `transaction.get(...)`, hence every field optional. -/
structure Transaction where
  id : Option String := none
  amount : Option ℚ := none
  currency : Option String := none
  supplier_name : Option String := none
  country : Option String := none
  payment_method : Option String := none
  risk_category : Option String := none
  deriving DecidableEq

/-- A violation record exactly as `_check_aml_compliance` appends it. -/
structure Violation where
  transaction_id : Option String
  violation_type : String
  description : String
  severity : String
  amount : Option ℚ
  currency : Option String
  supplier : Option String
  country : Option String
  payment_method : Option String
  deriving DecidableEq

/-- `transaction.get("amount", 0)`: a missing amount reads as `0`. -/
def amountD (t : Transaction) : ℚ :=
  t.amount.getD 0

/-- The high-risk country list hard-coded inside
`MCPAuditServer._check_aml_compliance` (src/mcp_server.py line 497). -/
def highRiskCountriesServer : List String :=
  ["North Korea", "Iran", "Syria", "Sudan", "Cuba", "Russia", "Belarus"]

/-- The country list of the `high_risk_country` entry of
`PolicyEngineAgent.compliance_rules` (src/agents/policy_engine_agent.py). -/
def highRiskCountriesPolicy : List String :=
  ["North Korea", "Iran", "Syria", "Sudan", "Cuba",
   "Afghanistan", "Myanmar", "Russia", "Belarus", "Venezuela"]

/-- The `pep_transaction` threshold declared by
`PolicyEngineAgent.compliance_rules` (severity "high", currency EUR). -/
def pepTransactionThreshold : ℚ := 1000

/-- `transaction.get("amount", 0) > 100000` — the high-value check. -/
def highValuePred (t : Transaction) : Bool :=
  decide (amountD t > 100000)

/-- `transaction.get("country") in high_risk_countries` — a missing country
(`None`) is never in the list. -/
def highRiskCountryPred (t : Transaction) : Bool :=
  match t.country with
  | some c => highRiskCountriesServer.contains c
  | none => false

/-- `transaction.get("payment_method") in ["CHECK", "CASH"] and
transaction.get("amount", 0) > 5000` — the CTR check. -/
def ctrPred (t : Transaction) : Bool :=
  (match t.payment_method with
   | some pm => ["CHECK", "CASH"].contains pm
   | none => false) && decide (amountD t > 5000)

/-- `transaction.get("risk_category") in ["HIGH", "PEP"] and
transaction.get("amount", 0) > 3000` — the SAR check. -/
def sarPred (t : Transaction) : Bool :=
  (match t.risk_category with
   | some rc => ["HIGH", "PEP"].contains rc
   | none => false) && decide (amountD t > 3000)

/-- The violation dictionary shared by all four rule branches; only the
type, description and severity differ between branches. -/
def baseViolation (t : Transaction) (vtype desc sev : String) : Violation :=
  { transaction_id := t.id
    violation_type := vtype
    description := desc
    severity := sev
    amount := t.amount
    currency := t.currency
    supplier := t.supplier_name
    country := t.country
    payment_method := t.payment_method }

/-- The record appended by the high-value branch.  The formatted
`transaction.get('amount')` equals `amountD t` because the branch guard
forces the amount key to be present (the default `0` never exceeds the
positive threshold). -/
def highValueViolation (t : Transaction) : Violation :=
  baseViolation t "high_value_transaction"
    ("Transaction amount €" ++ fmtComma2 (amountD t) ++ " exceeds €100,000 threshold")
    "high"

/-- The record appended by the high-risk-country branch; its guard forces
the country to be present, so `.getD "None"` (Python renders a missing key
as the text `None`) never actually fires inside the branch. -/
def highRiskCountryViolation (t : Transaction) : Violation :=
  baseViolation t "high_risk_country"
    ("Transaction from high-risk country: " ++ t.country.getD "None")
    "critical"

/-- The record appended by the CTR branch (guard forces payment method and
amount to be present). -/
def ctrViolation (t : Transaction) : Violation :=
  baseViolation t "ctr_threshold"
    ("CTR required for " ++ t.payment_method.getD "None" ++ " transaction €" ++
      fmtComma2 (amountD t))
    "medium"

/-- The record appended by the SAR branch (guard forces risk category and
amount to be present). -/
def sarViolation (t : Transaction) : Violation :=
  baseViolation t "sar_threshold"
    ("SAR required for " ++ t.risk_category.getD "None" ++ " risk transaction €" ++
      fmtComma2 (amountD t))
    "high"

/-- The violations one transaction contributes, in the source's branch
order: high-value, high-risk country, CTR, SAR. -/
def amlViolationsFor (t : Transaction) : List Violation :=
  (if highValuePred t then [highValueViolation t] else []) ++
  (if highRiskCountryPred t then [highRiskCountryViolation t] else []) ++
  (if ctrPred t then [ctrViolation t] else []) ++
  (if sarPred t then [sarViolation t] else [])

/-- `MCPAuditServer._check_aml_compliance`: one pass over the transactions,
appending each transaction's violations in branch order. -/
def check_aml_compliance (transactions : List Transaction) : List Violation :=
  (transactions.map amlViolationsFor).flatten

/-- `MCPAuditServer._check_financial_compliance` — returns no violations. -/
def check_financial_compliance (_transactions : List Transaction) : List Violation :=
  []

/-- `MCPAuditServer._check_regulatory_compliance` — returns no violations. -/
def check_regulatory_compliance (_transactions : List Transaction) : List Violation :=
  []

/-- `MCPAuditServer._check_risk_compliance` — returns no violations. -/
def check_risk_compliance (_transactions : List Transaction) : List Violation :=
  []

/-- The result dictionary `_validate_compliance` serialises (without the
timestamp, which is wall-clock I/O outside the deterministic core). -/
structure ComplianceResult where
  policy_type : String
  transactions_checked : ℕ
  violations_found : ℕ
  violations : List Violation
  compliance_status : String
  deriving DecidableEq

/-- `MCPAuditServer._validate_compliance`: dispatch on the policy type
(an unrecognised type keeps the initial empty violation list), then count
and grade.  `compliance_status` is `"PASS"` exactly when no violation was
collected. -/
def validate_compliance (transactions : List Transaction) (policy_type : String) :
    ComplianceResult :=
  let violations :=
    if policy_type = "aml" then check_aml_compliance transactions
    else if policy_type = "financial" then check_financial_compliance transactions
    else if policy_type = "regulatory" then check_regulatory_compliance transactions
    else []
  { policy_type := policy_type
    transactions_checked := transactions.length
    violations_found := violations.length
    violations := violations
    compliance_status := if violations.length = 0 then "PASS" else "FAIL" }

/-- The `summary` block of an audit report (`_generate_audit_report`):
the compliance rate is the rational value the source formats with `:.1f`,
kept exact here. -/
structure AuditSummary where
  total_transactions : ℕ
  violations_found : ℕ
  compliance_rate : ℚ
  deriving DecidableEq

/-- `MCPAuditServer._generate_audit_report`, restricted to its summary:
the report type picks the checker run over the stored transactions (an
unknown type reports over no transactions), and the rate is
`(len(transactions) - len(violations)) / max(len(transactions), 1) * 100`. -/
def generate_audit_report_summary (report_type : String)
    (transactions : List Transaction) : AuditSummary :=
  let (ts, violations) :=
    if report_type = "compliance" then (transactions, check_aml_compliance transactions)
    else if report_type = "financial" then (transactions, check_financial_compliance transactions)
    else if report_type = "risk" then (transactions, check_risk_compliance transactions)
    else if report_type = "aml" then (transactions, check_aml_compliance transactions)
    else ([], [])
  { total_transactions := ts.length
    violations_found := violations.length
    compliance_rate :=
      ((ts.length : ℚ) - (violations.length : ℚ)) / ((max ts.length 1 : ℕ) : ℚ) * 100 }

/-- `PolicyEngineAgent._parse_request_type`: keyword sets tested in source
order against the lowered input; the first hit wins. -/
def policy_parse_request_type (user_input : String) : String :=
  let s := pyLower user_input
  if ["validate", "check", "verify", "audit"].any (fun w => strContains s w) then
    "validate_data"
  else if ["compliance", "compliant", "regulation"].any (fun w => strContains s w) then
    "check_compliance"
  else if ["recommend", "suggest", "policy"].any (fun w => strContains s w) then
    "policy_recommendations"
  else if ["regulatory", "sox", "gaap", "ifrs"].any (fun w => strContains s w) then
    "regulatory_check"
  else if ["report", "summary", "overview"].any (fun w => strContains s w) then
    "compliance_report"
  else
    "all"

/-- `FinancialDataAgent._parse_request_type`: transaction keywords are
deliberately tested first ("Prioritize transaction keywords first"). -/
def financial_parse_request_type (user_input : String) : String :=
  let s := pyLower user_input
  if ["transaction", "payment", "invoice", "supplier", "eur", "usd", "currency",
      "amount"].any (fun w => strContains s w) then
    "transactions"
  else if ["revenue", "income", "sales"].any (fun w => strContains s w) then
    "revenue"
  else if ["expense", "cost", "spending"].any (fun w => strContains s w) then
    "expenses"
  else if ["asset", "property", "equipment"].any (fun w => strContains s w) then
    "assets"
  else if ["analyze", "analysis", "calculate", "compare"].any (fun w => strContains s w) then
    "analysis"
  else if ["report", "summary", "overview"].any (fun w => strContains s w) then
    "report"
  else
    "all"

/-- The filter dictionary `_parse_transaction_filters` builds; every key
optional, absence meaning "no constraint". -/
structure FilterSet where
  min_amount : Option ℚ := none
  max_amount : Option ℚ := none
  country : Option String := none
  risk_category : Option String := none
  supplier_name : Option String := none
  deriving DecidableEq

/-- `country_mapping` of `_parse_transaction_filters`, in the source's
insertion order (Python dict iteration order). -/
def countryMapping : List (String × String) :=
  [("usa", "USA"), ("russia", "Russia"), ("germany", "Germany"),
   ("france", "France"), ("uk", "UK"), ("canada", "Canada"),
   ("australia", "Australia"), ("japan", "Japan"), ("north korea", "North Korea"),
   ("iran", "Iran"), ("syria", "Syria"), ("sudan", "Sudan"), ("cuba", "Cuba"),
   ("afghanistan", "Afghanistan"), ("myanmar", "Myanmar"), ("belarus", "Belarus"),
   ("venezuela", "Venezuela"), ("netherlands", "Netherlands"), ("sweden", "Sweden"),
   ("norway", "Norway"), ("switzerland", "Switzerland")]

/-- `words[i+1].replace("€", "").replace(",", "").replace("k", "000")` —
the numeric-token clean-up applied before `float()`. -/
def cleanAmountToken (w : String) : String :=
  pyReplace (pyReplace (pyReplace w "€" "") "," "") "k" "000"

/-- The amount-bound scan of `_parse_transaction_filters`: for every index
`i` with `words[i]` a keyword and `i + 1` in range, try to parse
`words[i+1]`; failures are swallowed (`except: pass`) and each success
overwrites the previous one, so the last parsable occurrence wins. -/
def amountAfterKeywords (keys : List String) (words : List String) : Option ℚ :=
  ((List.range words.length).filterMap fun i =>
    match words.get? i, words.get? (i + 1) with
    | some w, some nxt =>
      if keys.contains w then pyFloat (cleanAmountToken nxt) else none
    | _, _ => none).getLast?

/-- `FinancialDataAgent._parse_transaction_filters`, clause for clause:
amount bounds guarded by a substring test for the keywords, first matching
country-mapping key wins, the three literal risk phrases, and the word
following an exact `"supplier"` token (first occurrence) as the
supplier-name fragment. -/
def parse_transaction_filters (user_input : String) : FilterSet :=
  let s := pyLower user_input
  let words := pySplit s
  { min_amount :=
      if strContains s "over" || strContains s "above" then
        amountAfterKeywords ["over", "above"] words
      else none
    max_amount :=
      if strContains s "under" || strContains s "below" then
        amountAfterKeywords ["under", "below"] words
      else none
    country := (countryMapping.find? fun p => strContains s p.fst).map Prod.snd
    risk_category :=
      if strContains s "low risk" then some "LOW"
      else if strContains s "medium risk" then some "MEDIUM"
      else if strContains s "high risk" then some "HIGH"
      else none
    supplier_name :=
      if strContains s "supplier" then
        ((List.range words.length).filterMap fun i =>
          if words.get? i = some "supplier" then words.get? (i + 1) else none).head?
      else none }

/-! ## Concrete fixtures used by the scenario theorems -/

/-- The spec's scenario transaction: €150,000 wire from Russia, low risk. -/
def scenarioTxn : Transaction :=
  { id := some "TXN-2024-001", amount := some 150000, currency := some "EUR",
    supplier_name := some "Vostok Trading", country := some "Russia",
    payment_method := some "WIRE", risk_category := some "LOW" }

/-- A PEP-classified transaction of €2,000 (above the declared €1,000 PEP
threshold, below every enforced threshold) from a benign country. -/
def pepTxn : Transaction :=
  { id := some "TXN-PEP-1", amount := some 2000, currency := some "EUR",
    supplier_name := some "Alpine Consulting", country := some "Germany",
    payment_method := some "WIRE", risk_category := some "PEP" }

/-- A €50,000 wire from Afghanistan — in the policy table's high-risk
country list but not in the server's enforced list. -/
def afghanTxn : Transaction :=
  { id := some "TXN-2024-042", amount := some 50000, currency := some "EUR",
    supplier_name := some "Kabul Imports", country := some "Afghanistan",
    payment_method := some "WIRE", risk_category := some "LOW" }

/-- A €2,000 wire from Russia: triggers only the high-risk-country rule. -/
def rusTxn2000 : Transaction :=
  { id := some "TXN-2024-077", amount := some 2000, currency := some "EUR",
    supplier_name := some "Moscow Metals", country := some "Russia",
    payment_method := some "WIRE", risk_category := some "LOW" }

/-- A transaction record with no amount key at all, from Iran. -/
def iranTxnNoAmount : Transaction :=
  { id := some "TXN-2024-090", amount := none, currency := some "EUR",
    supplier_name := some "Tehran Textiles", country := some "Iran",
    payment_method := some "CASH", risk_category := some "HIGH" }

/-! ## Substring lemmas for the description theorems -/

/-- Appending the two strings concatenates their character data. -/
theorem str_data_append (s t : String) : (s ++ t).data = s.data ++ t.data := by
  cases s
  cases t
  rfl

/-- A list starts with itself, whatever follows. -/
theorem listStarts_self (pat b : List Char) : listStarts pat (pat ++ b) = true := by
  induction pat with
  | nil => rfl
  | cons p ps ih => simp [listStarts, ih]

/-- The empty pattern occurs in every list. -/
theorem listContainsSub_nil (l : List Char) : listContainsSub [] l = true := by
  cases l <;> simp [listContainsSub, listStarts]

/-- A list occurs at the head of itself followed by anything. -/
theorem listContainsSub_self_append (pat b : List Char) :
    listContainsSub pat (pat ++ b) = true := by
  cases pat with
  | nil => exact listContainsSub_nil _
  | cons p ps =>
    simp only [List.cons_append, listContainsSub, Bool.or_eq_true]
    exact Or.inl (listStarts_self (p :: ps) b)

/-- Occurrence is stable under prepending. -/
theorem listContainsSub_append_left (a : List Char) {b pat : List Char}
    (h : listContainsSub pat b = true) : listContainsSub pat (a ++ b) = true := by
  induction a with
  | nil => simpa using h
  | cons c a' ih => simp [listContainsSub, ih]

/-- Python `pat in a + b` holds when `pat in b` holds. -/
theorem strContains_append_right (a b pat : String) (h : strContains b pat = true) :
    strContains (a ++ b) pat = true := by
  unfold strContains at h ⊢
  rw [str_data_append]
  exact listContainsSub_append_left _ h

/-- Python `x in a + x` always holds. -/
theorem strContains_append_self (a x : String) : strContains (a ++ x) x = true := by
  unfold strContains
  rw [str_data_append]
  have h := listContainsSub_self_append x.data []
  rw [List.append_nil] at h
  exact listContainsSub_append_left _ h

/-- Python `x in a + x + b` always holds. -/
theorem strContains_append_middle (a x b : String) :
    strContains (a ++ x ++ b) x = true := by
  unfold strContains
  rw [str_data_append, str_data_append, List.append_assoc]
  exact listContainsSub_append_left _ (listContainsSub_self_append _ _)

/-- The high-value branch always labels its violation
"high_value_transaction". -/
theorem highValueViolation_type (t : Transaction) :
    (highValueViolation t).violation_type = "high_value_transaction" := rfl

/-- The high-risk-country branch always labels its violation
"high_risk_country". -/
theorem highRiskCountryViolation_type (t : Transaction) :
    (highRiskCountryViolation t).violation_type = "high_risk_country" := rfl

/-- The CTR branch always labels its violation "ctr_threshold". -/
theorem ctrViolation_type (t : Transaction) :
    (ctrViolation t).violation_type = "ctr_threshold" := rfl

/-- The SAR branch always labels its violation "sar_threshold". -/
theorem sarViolation_type (t : Transaction) :
    (sarViolation t).violation_type = "sar_threshold" := rfl

/-- Membership characterisation of a transaction's violation list: a
violation comes from exactly one of the four guarded branches. -/
theorem mem_amlViolationsFor {t : Transaction} {v : Violation}
    (hv : v ∈ amlViolationsFor t) :
    (highValuePred t = true ∧ v = highValueViolation t) ∨
    (highRiskCountryPred t = true ∧ v = highRiskCountryViolation t) ∨
    (ctrPred t = true ∧ v = ctrViolation t) ∨
    (sarPred t = true ∧ v = sarViolation t) := by
  cases h1 : highValuePred t <;> cases h2 : highRiskCountryPred t <;>
    cases h3 : ctrPred t <;> cases h4 : sarPred t <;>
    simp [amlViolationsFor, h1, h2, h3, h4] at hv ⊢ <;> tauto

/-! ## Claim theorems -/

/-- C1: the violation list of a PEP transaction of €2,000 — risk category
PEP and amount strictly above the declared €1,000 `pep_transaction`
threshold — is empty: `_check_aml_compliance` contains no pep_transaction
branch at all, contradicting the rule the policy table declares. -/
theorem pep_rule_not_enforced :
    pepTxn.risk_category = some "PEP" ∧
    amountD pepTxn > pepTransactionThreshold ∧
    check_aml_compliance [pepTxn] = [] := by
  refine ⟨rfl, by decide, by decide⟩

/-- C2: Afghanistan is in the policy table's ten-country high-risk list but
not in the seven-country list the server's rule engine enforces, so a
transaction from Afghanistan produces no violation and the run passes. -/
theorem afghanistan_transaction_not_flagged :
    afghanTxn.country = some "Afghanistan" ∧
    "Afghanistan" ∈ highRiskCountriesPolicy ∧
    "Afghanistan" ∉ highRiskCountriesServer ∧
    check_aml_compliance [afghanTxn] = [] ∧
    (validate_compliance [afghanTxn] "aml").compliance_status = "PASS" := by
  refine ⟨rfl, by decide, by decide, by decide, by decide⟩

/-- C3 (counterexample): classifying `"check compliance status"` does not
yield the check-compliance request type — the word "check" hits the
validate/check/verify/audit keyword set, which is tested first. -/
theorem policy_intent_scenario_cex :
    policy_parse_request_type "check compliance status" ≠ "check_compliance" := by
  decide

/-- C3 (amended): `"check compliance status"` classifies as the
data-validation request type `"validate_data"` (the first keyword set
matched), and the financial agent's classifier yields `"all"`, not
`"transactions"`. -/
theorem policy_intent_scenario_amended :
    policy_parse_request_type "check compliance status" = "validate_data" ∧
    financial_parse_request_type "check compliance status" = "all" :=
  ⟨by decide, by decide⟩

/-- C4 (counterexample): the high_risk_country violation of a €2,000
transaction from Russia does not embed the formatted amount "2,000.00" in
its description — the claim's "every violation, including
high_risk_country" fails. -/
theorem violation_description_amount_cex :
    (amlViolationsFor rusTxn2000).map Violation.violation_type = ["high_risk_country"] ∧
    (amlViolationsFor rusTxn2000).map
        (fun v => strContains v.description (fmtComma2 (amountD rusTxn2000))) = [false] := by
  decide

/-- C4 (amended): every violation except high_risk_country embeds the
transaction's amount formatted with thousands separators and two decimals;
only high_value_transaction descriptions also embed the €100,000 threshold;
a high_risk_country description is exactly the fixed prefix followed by the
country, with no amount. -/
theorem violation_description_contents (t : Transaction) (v : Violation)
    (hv : v ∈ amlViolationsFor t) :
    (v.violation_type ≠ "high_risk_country" →
      strContains v.description (fmtComma2 (amountD t)) = true) ∧
    (v.violation_type = "high_value_transaction" →
      strContains v.description "€100,000" = true) ∧
    (v.violation_type = "high_risk_country" →
      ∃ c : String, t.country = some c ∧
        v.description = "Transaction from high-risk country: " ++ c) := by
  rcases mem_amlViolationsFor hv with ⟨hp, rfl⟩ | ⟨hp, rfl⟩ | ⟨hp, rfl⟩ | ⟨hp, rfl⟩
  · refine ⟨fun _ => ?_, fun _ => ?_,
      fun hty => by rw [highValueViolation_type] at hty; exact absurd hty (by decide)⟩
    · exact strContains_append_middle _ _ _
    · exact strContains_append_right _ _ _ (by decide)
  · refine ⟨fun hne => absurd rfl hne,
      fun hty => by rw [highRiskCountryViolation_type] at hty; exact absurd hty (by decide),
      fun _ => ?_⟩
    cases hc : t.country with
    | none => simp [highRiskCountryPred, hc] at hp
    | some c => exact ⟨c, rfl, by simp [highRiskCountryViolation, baseViolation, hc]⟩
  · refine ⟨fun _ => ?_,
      fun hty => by rw [ctrViolation_type] at hty; exact absurd hty (by decide),
      fun hty => by rw [ctrViolation_type] at hty; exact absurd hty (by decide)⟩
    exact strContains_append_self _ _
  · refine ⟨fun _ => ?_,
      fun hty => by rw [sarViolation_type] at hty; exact absurd hty (by decide),
      fun hty => by rw [sarViolation_type] at hty; exact absurd hty (by decide)⟩
    exact strContains_append_self _ _

/-- C4 (witness): the description of the scenario transaction's high-value
violation embeds both the formatted amount and the threshold. -/
theorem violation_description_contents_witness :
    strContains (highValueViolation scenarioTxn).description
        (fmtComma2 (amountD scenarioTxn)) = true ∧
    strContains (highValueViolation scenarioTxn).description "€100,000" = true :=
  ⟨(violation_description_contents scenarioTxn (highValueViolation scenarioTxn)
      (by decide)).1 (by decide),
   (violation_description_contents scenarioTxn (highValueViolation scenarioTxn)
      (by decide)).2.1 (by decide)⟩

/-- The spec-words form of the report's compliance percentage:
`(total_transactions - violations_found) / max(total_transactions, 1) * 100`. -/
def complianceRateSpec (total violations : ℕ) : ℚ :=
  ((total : ℚ) - (violations : ℚ)) / max (total : ℚ) 1 * 100

/-- C5: the audit-report summary's compliance rate equals the spec formula
exactly, with no clamping, and is negative whenever the violations
outnumber the transactions. -/
theorem compliance_rate_formula (report_type : String) (ts : List Transaction) :
    (generate_audit_report_summary report_type ts).compliance_rate =
      complianceRateSpec (generate_audit_report_summary report_type ts).total_transactions
        (generate_audit_report_summary report_type ts).violations_found ∧
    ((generate_audit_report_summary report_type ts).total_transactions <
        (generate_audit_report_summary report_type ts).violations_found →
      (generate_audit_report_summary report_type ts).compliance_rate < 0) := by
  have key : ∀ n v : ℕ,
      ((n : ℚ) - (v : ℚ)) / ((max n 1 : ℕ) : ℚ) * 100 = complianceRateSpec n v ∧
      (n < v → ((n : ℚ) - (v : ℚ)) / ((max n 1 : ℕ) : ℚ) * 100 < 0) := by
    intro n v
    constructor
    · simp [complianceRateSpec, Nat.cast_max]
    · intro h
      have hnum : (n : ℚ) - (v : ℚ) < 0 := by
        have h' : (n : ℚ) < (v : ℚ) := by exact_mod_cast h
        linarith
      have hden : (0 : ℚ) < ((max n 1 : ℕ) : ℚ) := by
        have h1 : (0 : ℕ) < max n 1 := by omega
        exact_mod_cast h1
      have hq := div_neg_of_neg_of_pos hnum hden
      have := mul_neg_of_neg_of_pos hq (by norm_num : (0 : ℚ) < 100)
      exact this
  exact ⟨(key _ _).1, fun h => (key _ _).2 h⟩

/-- C5 (witness): the single scenario transaction triggers two violations,
so the report over it has violations exceeding transactions and a negative
compliance rate. -/
theorem compliance_rate_formula_witness :
    (generate_audit_report_summary "aml" [scenarioTxn]).total_transactions <
      (generate_audit_report_summary "aml" [scenarioTxn]).violations_found ∧
    (generate_audit_report_summary "aml" [scenarioTxn]).compliance_rate < 0 :=
  ⟨by decide, (compliance_rate_formula "aml" [scenarioTxn]).2 (by decide)⟩

/-- C6: the validation verdict is "PASS" exactly when no violation was
found, for every policy type and transaction list; and the empty
transaction list yields the zero-count PASS result (and a report summary
with zero transactions), not an error — the embedded functions are total. -/
theorem pass_iff_zero_violations :
    (∀ (policy_type : String) (ts : List Transaction),
      ((validate_compliance ts policy_type).compliance_status = "PASS" ↔
        (validate_compliance ts policy_type).violations_found = 0)) ∧
    validate_compliance [] "aml" =
      { policy_type := "aml", transactions_checked := 0, violations_found := 0,
        violations := [], compliance_status := "PASS" } ∧
    (generate_audit_report_summary "aml" []).total_transactions = 0 := by
  refine ⟨?_, by decide, by decide⟩
  intro pt ts
  by_cases hz :
      (if pt = "aml" then check_aml_compliance ts
       else if pt = "financial" then check_financial_compliance ts
       else if pt = "regulatory" then check_regulatory_compliance ts
       else []).length = 0 <;>
    simp [validate_compliance, hz]

/-- The four rule predicates of `_check_aml_compliance`, in branch order. -/
def amlRulePredicates : List (Transaction → Bool) :=
  [highValuePred, highRiskCountryPred, ctrPred, sarPred]

/-- C7: every transaction contributes exactly one violation per satisfied
rule predicate (no deduplication or merging), and the €150,000 Russia wire
scenario yields exactly the high-value (high) and high-risk-country
(critical) violations with a FAIL verdict. -/
theorem rule_independence_and_scenario :
    (∀ t : Transaction, (amlViolationsFor t).length =
        (amlRulePredicates.filter (fun p => p t)).length) ∧
    (check_aml_compliance [scenarioTxn]).map (fun v => (v.violation_type, v.severity)) =
      [("high_value_transaction", "high"), ("high_risk_country", "critical")] ∧
    (validate_compliance [scenarioTxn] "aml").compliance_status = "FAIL" := by
  refine ⟨?_, by decide, by decide⟩
  intro t
  cases h1 : highValuePred t <;> cases h2 : highRiskCountryPred t <;>
    cases h3 : ctrPred t <;> cases h4 : sarPred t <;>
    simp [amlViolationsFor, amlRulePredicates, h1, h2, h3, h4]

/-- C8: every amount threshold is strict: at exactly €100,000 no
high-value violation, at exactly €5,000 no CTR violation even for CHECK or
CASH, at exactly €3,000 no SAR violation even for HIGH or PEP risk, and no
pep_transaction violation is ever produced (in particular not at exactly
€1,000). -/
theorem strict_threshold_boundaries (t : Transaction) :
    (t.amount = some 100000 →
      ∀ v ∈ amlViolationsFor t, v.violation_type ≠ "high_value_transaction") ∧
    ((t.payment_method = some "CHECK" ∨ t.payment_method = some "CASH") →
      t.amount = some 5000 →
      ∀ v ∈ amlViolationsFor t, v.violation_type ≠ "ctr_threshold") ∧
    ((t.risk_category = some "HIGH" ∨ t.risk_category = some "PEP") →
      t.amount = some 3000 →
      ∀ v ∈ amlViolationsFor t, v.violation_type ≠ "sar_threshold") ∧
    (t.risk_category = some "PEP" → t.amount = some 1000 →
      ∀ v ∈ amlViolationsFor t, v.violation_type ≠ "pep_transaction") := by
  refine ⟨?_, ?_, ?_, ?_⟩
  · intro ha v hv
    rcases mem_amlViolationsFor hv with ⟨hp, rfl⟩ | ⟨hp, rfl⟩ | ⟨hp, rfl⟩ | ⟨hp, rfl⟩
    · simp [highValuePred, amountD, ha] at hp
    · rw [highRiskCountryViolation_type]; decide
    · rw [ctrViolation_type]; decide
    · rw [sarViolation_type]; decide
  · intro _ ha v hv
    rcases mem_amlViolationsFor hv with ⟨hp, rfl⟩ | ⟨hp, rfl⟩ | ⟨hp, rfl⟩ | ⟨hp, rfl⟩
    · rw [highValueViolation_type]; decide
    · rw [highRiskCountryViolation_type]; decide
    · simp [ctrPred, amountD, ha] at hp
    · rw [sarViolation_type]; decide
  · intro _ ha v hv
    rcases mem_amlViolationsFor hv with ⟨hp, rfl⟩ | ⟨hp, rfl⟩ | ⟨hp, rfl⟩ | ⟨hp, rfl⟩
    · rw [highValueViolation_type]; decide
    · rw [highRiskCountryViolation_type]; decide
    · rw [ctrViolation_type]; decide
    · simp [sarPred, amountD, ha] at hp
  · intro _ _ v hv
    rcases mem_amlViolationsFor hv with ⟨hp, rfl⟩ | ⟨hp, rfl⟩ | ⟨hp, rfl⟩ | ⟨hp, rfl⟩
    · rw [highValueViolation_type]; decide
    · rw [highRiskCountryViolation_type]; decide
    · rw [ctrViolation_type]; decide
    · rw [sarViolation_type]; decide

/-- C9: the scenario query parses to exactly a €5,000 maximum, country USA
and LOW risk — no minimum amount and no supplier-name fragment (the token
"suppliers" is not the exact word "supplier"). -/
theorem filter_extraction_scenario :
    parse_transaction_filters "transactions under €5,000 from USA suppliers with low risk" =
      { min_amount := none, max_amount := some 5000, country := some "USA",
        risk_category := some "LOW", supplier_name := none } := by
  decide

/-- C10: a transaction record with no amount key is processed without
error; it can only ever contribute high_risk_country violations (the three
amount-guarded rules read the missing amount as 0), and it does contribute
one when its country is in the enforced high-risk list. -/
theorem missing_amount_safe (t : Transaction) (h : t.amount = none) :
    (∀ v ∈ amlViolationsFor t, v.violation_type = "high_risk_country") ∧
    (∀ c : String, t.country = some c → c ∈ highRiskCountriesServer →
      ∃ v ∈ amlViolationsFor t, v.violation_type = "high_risk_country") := by
  constructor
  · intro v hv
    rcases mem_amlViolationsFor hv with ⟨hp, rfl⟩ | ⟨hp, rfl⟩ | ⟨hp, rfl⟩ | ⟨hp, rfl⟩
    · simp only [highValuePred, amountD, h, Option.getD_none, decide_eq_true_eq] at hp
      exact absurd hp (by norm_num)
    · exact highRiskCountryViolation_type t
    · simp only [ctrPred, amountD, h, Option.getD_none, Bool.and_eq_true,
        decide_eq_true_eq] at hp
      exact absurd hp.2 (by norm_num)
    · simp only [sarPred, amountD, h, Option.getD_none, Bool.and_eq_true,
        decide_eq_true_eq] at hp
      exact absurd hp.2 (by norm_num)
  · intro c hc hmem
    have hp : highRiskCountryPred t = true := by
      simp [highRiskCountryPred, hc]
      exact hmem
    exact ⟨highRiskCountryViolation t, by simp [amlViolationsFor, hp],
      highRiskCountryViolation_type t⟩

/-- C10 (witness): the Iranian no-amount transaction yields only (and at
least one) high_risk_country violation. -/
theorem missing_amount_safe_witness :
    (∀ v ∈ amlViolationsFor iranTxnNoAmount, v.violation_type = "high_risk_country") ∧
    (∃ v ∈ amlViolationsFor iranTxnNoAmount, v.violation_type = "high_risk_country") :=
  ⟨(missing_amount_safe iranTxnNoAmount rfl).1,
   (missing_amount_safe iranTxnNoAmount rfl).2 "Iran" rfl (by decide)⟩
